import Mathlib

/-!
Verification of `codes/models/SwitchedResidualGenerator_arch.py` (mmsr).

This file shallowly embeds the switching/multiplexing generator of the
repository: the temperature-annealing schedule of
`ConfigurableSwitchedResidualGenerator2.update_for_step`, the generator
state it mutates, the evaluation-mode assertion guard of `forward`, the
`get_debug_values` accessor, the orchestration arithmetic of
`ConfigurableSwitchComputer.forward`, the query/key multiplexers, and the
`register_ConfigurableSwitchedResidualGenerator2` registration entry point.

Python floats are modelled as rationals (`ℚ`); training steps as `ℕ` cast
to `ℚ` where the schedule formulas need them.  The source file defines
`ConfigurableSwitchedResidualGenerator2` twice; following the module-level
semantics of Python, the second definition (lines 483-574) is the binding
in effect and is the one embedded here.
-/

/-! ## Temperature schedule (`update_for_step`, lines 540-555) -/

/-- The linear anneal computed at lines 542-543:
`temp = max(1, 1 + self.init_temperature * (self.final_temperature_step - step) / self.final_temperature_step)`. -/
def annealTemp (initTemperature finalTemperatureStep : ℚ) (step : ℚ) : ℚ :=
  max 1 (1 + initTemperature * (finalTemperatureStep - step) / finalTemperatureStep)

/-- The full temperature computed by `update_for_step` (lines 542-554).
The heightened branch fires when the linear temp equals 1, the configured
`heightened_final_step` is Python-truthy (nonzero) and not 1, and
`step > final_temperature_step`; it then computes
`h_gap = 1 / heightened_temp_min`,
`temp = h_gap * h_steps_current / h_steps_total` and inverts it. -/
def updateTemp (initTemperature finalTemperatureStep heightenedTempMin heightenedFinalStep : ℚ)
    (step : ℚ) : ℚ :=
  let temp := annealTemp initTemperature finalTemperatureStep step
  if temp = 1 ∧ heightenedFinalStep ≠ 0 ∧ step > finalTemperatureStep ∧ heightenedFinalStep ≠ 1
  then
    let hStepsTotal := heightenedFinalStep - finalTemperatureStep
    let hStepsCurrent := min (step - finalTemperatureStep) hStepsTotal
    let hGap := 1 / heightenedTempMin
    1 / (hGap * hStepsCurrent / hStepsTotal)
  else temp

/-! ## Generator state (`ConfigurableSwitchedResidualGenerator2`, second
definition, lines 483-574).

Only the state that the claims touch is carried: the schedule
configuration, the per-switch temperatures (each
`ConfigurableSwitchComputer` owns one, set through `set_temperature`),
the retained `attentions` field, and the `upsample_factor`.  The type is
parametric in the attention-map payload `A` retained by a forward pass. -/

structure ConfigurableSwitchedResidualGenerator2 (A : Type) where
  initTemperature : ℚ
  finalTemperatureStep : ℚ
  heightenedTempMin : ℚ
  heightenedFinalStep : ℚ
  upsampleFactor : ℕ
  /-- one temperature per stacked switch computer (`self.switches`) -/
  switchTemps : List ℚ
  /-- `self.attentions`: `None` at construction, a list after a forward pass -/
  attentions : Option (List A)

/-- Python truthiness of the `attentions` field: `None` and `[]` are falsy,
a nonempty list is truthy. -/
def pyTruthyAttentions {A : Type} : Option (List A) → Bool
  | none => false
  | some l => !l.isEmpty

/-- `__init__` (lines 484-514): builds `switch_depth` switch computers each
initialised at `init_temp`, sets `self.attentions = None`, then asserts
`self.upsample_factor == 2 or self.upsample_factor == 4` (line 514).
An `AssertionError` is modelled as `Except.error`. -/
def ConfigurableSwitchedResidualGenerator2.init (A : Type) (switch_depth : ℕ)
    (initial_temp final_temperature_step heightened_temp_min heightened_final_step : ℚ)
    (upsample_factor : ℕ) :
    Except String (ConfigurableSwitchedResidualGenerator2 A) :=
  let g : ConfigurableSwitchedResidualGenerator2 A :=
    { initTemperature := initial_temp
      finalTemperatureStep := final_temperature_step
      heightenedTempMin := heightened_temp_min
      heightenedFinalStep := heightened_final_step
      upsampleFactor := upsample_factor
      switchTemps := List.replicate switch_depth initial_temp
      attentions := none }
  if g.upsampleFactor = 2 ∨ g.upsampleFactor = 4 then Except.ok g
  else Except.error "AssertionError: upsample_factor"

/-- `set_temperature` (lines 537-538): broadcast one temperature to every
stacked switch computer. -/
def ConfigurableSwitchedResidualGenerator2.setTemperature {A : Type}
    (g : ConfigurableSwitchedResidualGenerator2 A) (temp : ℚ) :
    ConfigurableSwitchedResidualGenerator2 A :=
  { g with switchTemps := g.switchTemps.map fun _ => temp }

/-- `update_for_step` (lines 540-563).  The whole body is guarded by
`if self.attentions:`; inside, the scheduled temperature is computed and
broadcast.  The attention-map image export every 100 steps (lines 556-563)
is a pure file-system side effect and leaves this state unchanged. -/
def ConfigurableSwitchedResidualGenerator2.update_for_step {A : Type}
    (g : ConfigurableSwitchedResidualGenerator2 A) (step : ℚ) :
    ConfigurableSwitchedResidualGenerator2 A :=
  if pyTruthyAttentions g.attentions then
    g.setTemperature
      (updateTemp g.initTemperature g.finalTemperatureStep g.heightenedTempMin
        g.heightenedFinalStep step)
  else g

/-! ## The evaluation-mode assertion in `forward` (lines 519-521).

The guard reads
`if not self.train: assert self.switches[0].switch.temperature == 1`.
On an `nn.Module`, the attribute `train` resolves to the bound method
`nn.Module.train`, not to the boolean flag `self.training` that
`train()` / `eval()` toggle; a bound-method object is always truthy in
Python.  The lookup is embedded as a value of `PyAttrValue` so that the
truth test the interpreter performs is explicit. -/

/-- A Python attribute value as seen by a truthiness test. -/
inductive PyAttrValue where
  | boundMethod
  | boolValue (b : Bool)
deriving DecidableEq

/-- Python truthiness of an attribute value: a bound method object is
always truthy. -/
def pyTruthy : PyAttrValue → Bool
  | .boundMethod => true
  | .boolValue b => b

/-- Attribute lookup `self.train` on the generator: regardless of the
module's `training` flag, the name `train` resolves to the bound method
`nn.Module.train`. -/
def selfTrainAttr (_training : Bool) : PyAttrValue :=
  PyAttrValue.boundMethod

/-- Whether the assertion at line 521 fires in `forward`, as a function of
the module's `training` flag and the first switch's temperature: the
assert runs only under `if not self.train:` and fails when the
temperature differs from 1. -/
def forwardAssertFires (training : Bool) (firstSwitchTemperature : ℚ) : Bool :=
  if !(pyTruthy (selfTrainAttr training)) then
    decide (firstSwitchTemperature ≠ 1)
  else false

/-! ## `get_debug_values` (second definition, lines 565-574). -/

/-- A Python runtime error relevant to `get_debug_values`. -/
inductive PyError where
  | indexError
  | typeErrorNoneNotIterable
deriving DecidableEq

/-- One value of the returned debug mapping: the temperature scalar, or a
per-switch specificity scalar, or a per-switch histogram. -/
inductive DebugValue (H : Type) where
  | scalar (q : ℚ)
  | histogram (h : H)

/-- `get_debug_values` (lines 565-574).  Line 566 reads
`self.switches[0].switch.temperature` (an `IndexError` if there are no
switches); line 567 iterates `self.attentions`, which raises a
`TypeError` when the field still holds `None`; otherwise the mapping of
named scalars and histograms is assembled.  `computeAttentionSpecificity`
is the external `compute_attention_specificity(att, 2)` collaborator,
passed in as a function. -/
def ConfigurableSwitchedResidualGenerator2.get_debug_values {A H : Type}
    (computeAttentionSpecificity : A → ℚ × H)
    (g : ConfigurableSwitchedResidualGenerator2 A) :
    Except PyError (List (String × DebugValue H)) := do
  let temp ← match g.switchTemps.head? with
    | none => Except.error PyError.indexError
    | some t => pure t
  let atts ← match g.attentions with
    | none => Except.error PyError.typeErrorNoneNotIterable
    | some l => pure l
  let meanHists := atts.map computeAttentionSpecificity
  let base : List (String × DebugValue H) := [("switch_temperature", DebugValue.scalar temp)]
  let perSwitch := meanHists.enum.map fun p =>
    [("switch_" ++ toString p.1 ++ "_specificity", DebugValue.scalar p.2.1),
     ("switch_" ++ toString p.1 ++ "_histogram", DebugValue.histogram p.2.2)]
  pure (base ++ perSwitch.flatten)

/-! ## Shape semantics of `forward` (lines 516-535).

The convolutional building blocks (`ConvBnLelu` and friends) live in
`models/arch_util.py`, outside this file's source; the spec treats them
as black-box operators with known input/output channel semantics
(stride-1 convolutions preserve spatial dimensions).  Shapes are
`(batch, channels, height, width)`. -/

structure TensorShape where
  batch : ℕ
  channels : ℕ
  height : ℕ
  width : ℕ
deriving DecidableEq, Repr

/-- Modelled from the spec: `ConvBnLelu` is an external basis conv block
("generic conv+normalize+activate unit") mapping its configured input
channel count to its output channel count and preserving spatial
dimensions. -/
def convBnLeluShape (outChannels : ℕ) (s : TensorShape) : TensorShape :=
  { s with channels := outChannels }

/-- `F.interpolate(x, scale_factor=2, mode="nearest")` (external torch
operator): doubles both spatial dimensions. -/
def interpolate2Shape (s : TensorShape) : TensorShape :=
  { s with height := 2 * s.height, width := 2 * s.width }

/-- Modelled from the spec: a Switch Computer is shape-preserving on its
`transformation_filters`-channel feature map ("Switch Computer output
spatial dims equal input spatial dims"; channels stay at
`transformation_filters`). -/
def switchComputerShape (transformationFilters : ℕ) (s : TensorShape) : TensorShape :=
  { s with channels := transformationFilters }

/-- The shape computed by `forward` (lines 516-535): `initial_conv`
(3 → `transformation_filters`), the stacked switch computers, `upconv1`
after a nearest ×2 interpolation, a second ×2 interpolation iff
`upsample_factor > 2`, `upconv2`, `hr_conv`, and `final_conv` down to 3
channels. -/
def srg2ForwardShape (transformationFilters switchDepth upsampleFactor : ℕ)
    (s : TensorShape) : TensorShape :=
  let s := convBnLeluShape transformationFilters s
  let s := (switchComputerShape transformationFilters)^[switchDepth] s
  let s := convBnLeluShape transformationFilters (interpolate2Shape s)
  let s := if 2 < upsampleFactor then interpolate2Shape s else s
  let s := convBnLeluShape transformationFilters s
  let s := convBnLeluShape transformationFilters s
  convBnLeluShape 3 s

/-! ## `ConfigurableSwitchComputer.forward` (lines 119-173).

Tensors are modelled pointwise as functions from an index type into `ℚ`.
The input `x` may be a tuple in the source; it is embedded as a head
tensor (the actual network parameter, assumed to be the identity, line
117-118) together with the list of remaining tuple elements.  The branch
transforms, the pre-transform, the multiplexer, the switch
(`BareConvSwitch`, external) and the post-switch conv are carried as
function-valued fields; the learned scalars `switch_scale`, `psc_scale`
and `noise_scale` are rationals.  `torch.stack(xformed, dim=1)` packages
the list of branch outputs; the optional stacked argument fed to the
multiplexer under `feed_transforms_into_multiplexer` is represented by
that list itself.  `checkpoint(f, *x)` is the external
activation-recomputation wrapper and equals `f(*x)` ("must not change
numeric results"), so `do_checkpointing` is not a parameter here.
The random draw `torch.randn_like(x1)` is passed in explicitly as
`rand`. -/

def Tensor (ι : Type) : Type := ι → ℚ

structure ConfigurableSwitchComputer (ι κ : Type) where
  preTransform : Option (List (Tensor ι) → Tensor ι)
  transforms : List (List (Tensor ι) → Tensor ι)
  multiplexer : List (Tensor ι) → Option (List (Tensor ι)) → Tensor κ
  /-- `BareConvSwitch` (external): maps the branch outputs and the logits
  to `(outputs, attention, attention_logits)`; the `Bool` is the
  `update_norm` flag passed through. -/
  switch : List (Tensor ι) → Tensor κ → Bool → Tensor ι × Tensor κ × Tensor κ
  addNoise : Bool
  noiseScale : ℚ
  feedTransformsIntoMultiplexer : Bool
  switchScale : ℚ
  postTransformBlock : Option (Tensor ι → Tensor ι)
  postSwitchConv : Option (Tensor ι → Tensor ι)
  pscScale : ℚ
  updateNorm : Bool

/-- `forward` (lines 119-173), returning
`(outputs, attention, att_logits)` (the `output_attention_weights` /
`output_att_logits` flags merely select among these return components). -/
def ConfigurableSwitchComputer.forward {ι κ : Type}
    (c : ConfigurableSwitchComputer ι κ)
    (x : Tensor ι × List (Tensor ι)) (rand : Tensor ι)
    (att_in : Option (Tensor ι × List (Tensor ι)) := none)
    (identity : Option (Tensor ι) := none)
    (fixed_scale : ℚ := 1) :
    Tensor ι × Tensor κ × Tensor κ :=
  let x1 := x.1
  let attIn := att_in.getD x
  let ident := identity.getD x1
  -- lines 132-137: noise replaces the head of the tuple
  let xs : List (Tensor ι) :=
    if c.addNoise then (fun i => x1 i + rand i * c.noiseScale) :: x.2
    else x1 :: x.2
  -- lines 141-144: optional pre-transform, re-wrapped as a 1-tuple
  let xs : List (Tensor ι) :=
    match c.preTransform with
    | some pt => [pt xs]
    | none => xs
  -- lines 145-148: the T branch transforms
  let xformed := c.transforms.map fun t => t xs
  -- lines 150-157: multiplexer on att_in, optionally also fed the stack
  let stacked : Option (List (Tensor ι)) :=
    if c.feedTransformsIntoMultiplexer then some xformed else none
  let m := c.multiplexer (attIn.1 :: attIn.2) stacked
  -- line 160: the switch
  let s := c.switch xformed m c.updateNorm
  let outputs := s.1
  let attention := s.2.1
  let attLogits := s.2.2
  -- lines 161-162: optional post-transform block
  let outputs :=
    match c.postTransformBlock with
    | some ptb => ptb outputs
    | none => outputs
  -- line 164: residual merge onto the identity
  let outputs : Tensor ι := fun i => ident i + outputs i * c.switchScale * fixed_scale
  -- lines 165-166: optional post-switch conv as a second residual
  let outputs : Tensor ι :=
    match c.postSwitchConv with
    | some psc => fun i => outputs i + psc outputs i * c.pscScale * fixed_scale
    | none => outputs
  (outputs, attention, attLogits)

/-! ## `QueryKeyMultiplexer.forward` (lines 358-379) and
`QueryKeyPyramidMultiplexer.forward` (lines 402-422).

A 5-D tensor `(b, t, f, h, w)` is modelled as a family of `(f, h, w)`
feature slices indexed by `Fin b → Fin t → α`; `.view(b*t, f, h, w)` is
the row-major reindexing along `Fin (b*t)` embedded below with explicit
`/ t` and `% t` index arithmetic, and `.view(b, t, h, w)` its inverse.
The convolutional sub-networks (`input_process`, the reduction /
processing / expansion query path, `key_process`, `query_key_combine`
and the `cbl` head) are external conv stacks; modelled from the spec
("builds a key per branch by running a single lightweight conv on each of
the `T` branch outputs"), a batched conv stack acts independently on each
batch element, so each is carried as a per-slice function applied at
every index of the flattened batch.  `torch.cat([q, k], dim=1)` pairs
the two `f`-channel slices. -/

/-- `.view(b*t, f, h, w)` applied to a `(b, t, f, h, w)` tensor: row-major
flattening of the leading two axes. -/
def viewFlat {α : Type} {b t : ℕ} (ts : Fin b → Fin t → α) (i : Fin (b * t)) : α :=
  ts ⟨i.val / t, Nat.div_lt_of_lt_mul (Nat.mul_comm b t ▸ i.isLt)⟩
    ⟨i.val % t,
      Nat.mod_lt _ (Nat.pos_of_ne_zero
        (Nat.mul_ne_zero_iff.mp
          (Nat.pos_iff_ne_zero.mp (Nat.lt_of_le_of_lt (Nat.zero_le _) i.isLt))).2)⟩

/-- `.view(b, t, h, w)` applied to a `(b*t, ...)`-indexed family: row-major
unflattening back to the two leading axes. -/
def viewSplit {α : Type} {b t : ℕ} (v : Fin (b * t) → α) (bi : Fin b) (j : Fin t) : α :=
  v ⟨bi.val * t + j.val, by
    calc bi.val * t + j.val < bi.val * t + t := by omega
    _ = (bi.val + 1) * t := by ring
    _ ≤ b * t := Nat.mul_le_mul_right t bi.isLt⟩

/-- `q.view(b, 1, f, h, w).repeat(1, t, 1, 1, 1).view(b*t, f, h, w)`
(line 373 / 416): broadcast the per-batch query across the branch axis of
the flattened batch. -/
def repeatBranch {α : Type} {b t : ℕ} (q : Fin b → α) (i : Fin (b * t)) : α :=
  q ⟨i.val / t, Nat.div_lt_of_lt_mul (Nat.mul_comm b t ▸ i.isLt)⟩

/-- `QueryKeyMultiplexer.forward` (lines 358-379).  `α` is the type of an
`(f, h, w)` feature slice, `β` the type of an `(h, w)` single-channel
slice.  `queryPath` bundles `input_process` / `embedding_process` /
reductions / processing / expansions (lines 359-367, per batch element);
`keyProcess` is line 371; `combineHead` bundles `query_key_combine`,
`cbl1`, `cbl2` on a channel-concatenated pair (lines 374-377). -/
def QueryKeyMultiplexer.forward {α β : Type} {b t : ℕ}
    (queryPath : α → α → α) (keyProcess : α → α) (combineHead : α × α → β)
    (x embedding : Fin b → α) (transformations : Fin b → Fin t → α) :
    Fin b → Fin t → β :=
  let q : Fin b → α := fun bi => queryPath (x bi) (embedding bi)
  let k : Fin (b * t) → α := fun i => keyProcess (viewFlat transformations i)
  let qr : Fin (b * t) → α := repeatBranch q
  let v : Fin (b * t) → β := fun i => combineHead (qr i, k i)
  viewSplit v

/-- `QueryKeyPyramidMultiplexer.forward` (lines 402-422): same skeleton
without the embedding input; `combineHead` additionally bundles `cbl0`
(lines 417-420). -/
def QueryKeyPyramidMultiplexer.forward {α β : Type} {b t : ℕ}
    (queryPath : α → α) (keyProcess : α → α) (combineHead : α × α → β)
    (x : Fin b → α) (transformations : Fin b → Fin t → α) :
    Fin b → Fin t → β :=
  let q : Fin b → α := fun bi => queryPath (x bi)
  let k : Fin (b * t) → α := fun i => keyProcess (viewFlat transformations i)
  let qr : Fin (b * t) → α := repeatBranch q
  let v : Fin (b * t) → β := fun i => combineHead (qr i, k i)
  viewSplit v

/-! ## `register_ConfigurableSwitchedResidualGenerator2` (lines 576-594).

The registration entry point calls the generator constructor with a
keyword-argument list.  Python evaluates the keyword values left to
right before binding the call; evaluating `opt_net['k']` raises
`KeyError` when `k` is missing, and evaluating a name that is bound
neither in the function scope nor among the module globals raises
`NameError`.  Binding a keyword the callee does not accept raises
`TypeError`.  The data below transcribes the call at lines 578-594 and
the constructor parameter list at lines 484-487. -/

/-- How one keyword value of the registration call is produced: an
`opt_net['key']` subscript, or a plain name lookup. -/
inductive KwargValue where
  | optNetItem (key : String)
  | nameRef (n : String)
deriving DecidableEq

/-- The keyword arguments of the constructor call inside
`register_ConfigurableSwitchedResidualGenerator2`, in source order
(lines 578-594).  `upsample_factor` is passed the bare name `scale`;
every other value subscripts `opt_net`. -/
def registerCallKwargList : List (String × KwargValue) :=
  [("switch_depth", KwargValue.optNetItem "switch_depth"),
   ("switch_filters", KwargValue.optNetItem "switch_filters"),
   ("switch_reductions", KwargValue.optNetItem "switch_reductions"),
   ("switch_processing_layers", KwargValue.optNetItem "switch_processing_layers"),
   ("trans_counts", KwargValue.optNetItem "trans_counts"),
   ("trans_kernel_sizes", KwargValue.optNetItem "trans_kernel_sizes"),
   ("trans_layers", KwargValue.optNetItem "trans_layers"),
   ("transformation_filters", KwargValue.optNetItem "transformation_filters"),
   ("attention_norm", KwargValue.optNetItem "attention_norm"),
   ("initial_temp", KwargValue.optNetItem "temperature"),
   ("final_temperature_step", KwargValue.optNetItem "temperature_final_step"),
   ("heightened_temp_min", KwargValue.optNetItem "heightened_temp_min"),
   ("heightened_final_step", KwargValue.optNetItem "heightened_final_step"),
   ("upsample_factor", KwargValue.nameRef "scale"),
   ("add_scalable_noise_to_transforms", KwargValue.optNetItem "add_noise"),
   ("for_video", KwargValue.optNetItem "for_video")]

/-- The parameters accepted by
`ConfigurableSwitchedResidualGenerator2.__init__` (lines 484-487),
excluding `self`; the signature has no `**kwargs`. -/
def csrg2InitParamNames : List String :=
  ["switch_depth", "switch_filters", "switch_reductions", "switch_processing_layers",
   "trans_counts", "trans_kernel_sizes", "trans_layers", "transformation_filters",
   "attention_norm", "initial_temp", "final_temperature_step", "heightened_temp_min",
   "heightened_final_step", "upsample_factor", "add_scalable_noise_to_transforms"]

/-- The names bound in the scope of the registration function: its two
parameters, and the module-level bindings of
`SwitchedResidualGenerator_arch.py` (imports at lines 1-14 and the
module-level classes and functions). -/
def registerScopeBoundNames : List String :=
  ["opt_net", "opt",
   "functools", "os", "OrderedDict", "torch", "F", "torchvision", "nn",
   "ConvBnLelu", "ConvGnSilu", "ExpansionBlock", "ExpansionBlock2", "MultiConvBlock",
   "BareConvSwitch", "compute_attention_specificity", "AttentionNorm",
   "save_attention_to_image_rgb", "register_model", "checkpoint",
   "HalvingProcessingBlock", "ConvBasisMultiplexer", "gather_2d",
   "ConfigurableSwitchComputer", "ConfigurableSwitchedResidualGenerator2",
   "ReferenceImageBranch", "EmbeddingMultiplexer", "QueryKeyMultiplexer",
   "QueryKeyPyramidMultiplexer", "SwitchModelBase",
   "register_ConfigurableSwitchedResidualGenerator2"]

/-- The possible outcomes of invoking the registration function on an
options mapping with the given key set. -/
inductive CallOutcome where
  | keyError (k : String)
  | nameError (n : String)
  | typeErrorUnexpectedKwarg (k : String)
  | ok
deriving DecidableEq

/-- Left-to-right evaluation of the keyword values at the call site:
`none` means all values evaluated without raising. -/
def evalRegisterKwargs (optNetKeys : List String) :
    List (String × KwargValue) → Option CallOutcome
  | [] => none
  | (_, KwargValue.optNetItem k) :: rest =>
    if optNetKeys.contains k then evalRegisterKwargs optNetKeys rest
    else some (CallOutcome.keyError k)
  | (_, KwargValue.nameRef n) :: rest =>
    if registerScopeBoundNames.contains n then evalRegisterKwargs optNetKeys rest
    else some (CallOutcome.nameError n)

/-- Invoking `register_ConfigurableSwitchedResidualGenerator2` on an
options mapping holding `optNetKeys`: evaluate the keyword values, then
bind them against the constructor signature (an unexpected keyword is a
`TypeError`). -/
def registerConfigurableSwitchedResidualGenerator2Call
    (optNetKeys : List String) : CallOutcome :=
  match evalRegisterKwargs optNetKeys registerCallKwargList with
  | some err => err
  | none =>
    match (registerCallKwargList.map Prod.fst).find?
        (fun k => !csrg2InitParamNames.contains k) with
    | some k => CallOutcome.typeErrorUnexpectedKwarg k
    | none => CallOutcome.ok

/-! ## Spec-side reference computation for the noise-scoping claim.

This definition is written from the spec's words (§4.4) rather than from
the source, to be compared with `ConfigurableSwitchComputer.forward`:
identity resolves to the first element of `x`; scaled random noise is
added to `x` before branching; the pre-transform and the `T` branch
transforms run on the noised input; the multiplexer runs on the original
unperturbed `x`; the mixed result merges onto the unperturbed
identity. -/
def cscForwardNoiseSpec {ι κ : Type} (c : ConfigurableSwitchComputer ι κ)
    (x : Tensor ι × List (Tensor ι)) (rand : Tensor ι) (fixed_scale : ℚ) :
    Tensor ι × Tensor κ × Tensor κ :=
  let x1 := x.1
  let noised : Tensor ι := fun i => x1 i + rand i * c.noiseScale
  let branchIn : List (Tensor ι) :=
    match c.preTransform with
    | some pt => [pt (noised :: x.2)]
    | none => noised :: x.2
  let xformed := c.transforms.map fun t => t branchIn
  let m := c.multiplexer (x1 :: x.2) none
  let s := c.switch xformed m c.updateNorm
  let outputs :=
    match c.postTransformBlock with
    | some ptb => ptb s.1
    | none => s.1
  let outputs : Tensor ι := fun i => x1 i + outputs i * c.switchScale * fixed_scale
  let outputs : Tensor ι :=
    match c.postSwitchConv with
    | some psc => fun i => outputs i + psc outputs i * c.pscScale * fixed_scale
    | none => outputs
  (outputs, s.2.1, s.2.2)

/-! ## A concrete switch computer instance, used to evaluate the theorems
below on explicit inputs.  Indices are trivial (`Unit`), so a tensor is a
single rational. -/

def sampleSwitchComputer : ConfigurableSwitchComputer Unit Unit where
  preTransform := none
  transforms := [fun xs => fun u => (xs.headD (fun _ => 0)) u * 2]
  multiplexer := fun xs _ => fun u => (xs.headD (fun _ => 0)) u
  switch := fun xf m _ => (fun u => (xf.headD (fun _ => 0)) u + m u, m, m)
  addNoise := true
  noiseScale := 1 / 1000
  feedTransformsIntoMultiplexer := false
  switchScale := 0
  postTransformBlock := none
  postSwitchConv := some fun tns => fun u => tns u + 5
  pscScale := 0
  updateNorm := true

/-! # Theorems -/

/-- C1: the heightened phase is NOT continuous at the boundary.  With
`initial_temp = 10`, `final_temperature_step = 10`,
`heightened_temp_min = 1/2 < 1` and `heightened_final_step = 20 > 10`, the
temperature the schedule computes at the boundary step 10 is 1, yet at the
very next step 11 it is 5 — an upward discontinuous jump strictly above
the boundary value 1, flattening rather than continuing the sharpening. -/
theorem heightened_phase_boundary_jump :
    updateTemp 10 10 (1 / 2) 20 10 = 1 ∧
    updateTemp 10 10 (1 / 2) 20 11 = 5 ∧ (1 : ℚ) < 5 := by
  refine ⟨?_, ?_, by norm_num⟩
  · simp only [updateTemp, annealTemp]
    norm_num
  · simp only [updateTemp, annealTemp]
    norm_num

/-- C2: the evaluation-mode assertion of `forward` (line 521) never fires:
the guard `not self.train` tests the truthiness of the bound method
`nn.Module.train`, which is always truthy, so even a non-training
generator whose first switch temperature is 20 ≠ 1 runs `forward` without
raising. -/
theorem eval_assert_never_fires :
    forwardAssertFires false 20 = false ∧
    ∀ (training : Bool) (temp : ℚ), forwardAssertFires training temp = false :=
  ⟨rfl, fun _ _ => rfl⟩

/-- C3 counterexample: the very first call to `update_for_step` after
construction does not broadcast the scheduled temperature.  A freshly
constructed generator (one switch, `initial_temp = 20`,
`final_temperature_step = 10`) still has switch temperature 20 after
`update_for_step 10`, although the scheduled temperature at step 10
is 1. -/
theorem update_for_step_first_call_noop :
    (ConfigurableSwitchedResidualGenerator2.init Unit 1 20 10 1 50 2).map
      (fun g => (g.update_for_step 10).switchTemps) = Except.ok [20] ∧
    updateTemp 20 10 1 50 10 = 1 ∧ (20 : ℚ) ≠ 1 := by
  refine ⟨rfl, ?_, by norm_num⟩
  simp only [updateTemp, annealTemp]
  norm_num

/-- C3 (amended): whenever the retained `attentions` field is truthy —
that is, on every call made after a forward pass has populated it —
`update_for_step` sets the temperature of every stacked switch computer
to the scheduled `updateTemp` value; before any forward pass the call
leaves the temperatures unchanged. -/
theorem update_for_step_broadcast {A : Type}
    (g : ConfigurableSwitchedResidualGenerator2 A) (step : ℚ) :
    (pyTruthyAttentions g.attentions = true →
      (g.update_for_step step).switchTemps = g.switchTemps.map fun _ =>
        updateTemp g.initTemperature g.finalTemperatureStep
          g.heightenedTempMin g.heightenedFinalStep step) ∧
    (pyTruthyAttentions g.attentions = false →
      (g.update_for_step step).switchTemps = g.switchTemps) := by
  constructor
  · intro h
    simp [ConfigurableSwitchedResidualGenerator2.update_for_step,
      ConfigurableSwitchedResidualGenerator2.setTemperature, h]
  · intro h
    simp [ConfigurableSwitchedResidualGenerator2.update_for_step, h]

/-- C3 witness: the amended statement evaluated on a generator with two
switches at temperature 20 and a populated `attentions` field, at step 10:
both temperatures become the scheduled value 1. -/
theorem update_for_step_broadcast_witness :
    pyTruthyAttentions (some [()]) = true ∧
    (ConfigurableSwitchedResidualGenerator2.update_for_step
      { initTemperature := 20, finalTemperatureStep := 10, heightenedTempMin := 1,
        heightenedFinalStep := 50, upsampleFactor := 2, switchTemps := [20, 20],
        attentions := some [()] } 10).switchTemps = [1, 1] := by
  refine ⟨rfl, ?_⟩
  have h := (update_for_step_broadcast
    (A := Unit)
    { initTemperature := 20, finalTemperatureStep := 10, heightenedTempMin := 1,
      heightenedFinalStep := 50, upsampleFactor := 2, switchTemps := [20, 20],
      attentions := some [()] } 10).1 rfl
  rw [h]
  have : updateTemp 20 10 1 50 10 = 1 := by
    simp only [updateTemp, annealTemp]; norm_num
  simp [this]

/-- C4: on `[0, S_final]` the scheduled temperature equals the linear
anneal `max(1, 1 + T0 * (S_final - s) / S_final)`; hence it is `1 + T0`
at step 0, `1` at `S_final`, and non-increasing on the interval.  (`T0`
is a temperature, hence nonnegative, and `S_final > 0` as the claim
requires.) -/
theorem anneal_schedule_linear (T0 Sf hMin hFinal : ℚ)
    (hT0 : 0 ≤ T0) (hSf : 0 < Sf) :
    (∀ s : ℚ, s ≤ Sf →
      updateTemp T0 Sf hMin hFinal s = max 1 (1 + T0 * (Sf - s) / Sf)) ∧
    updateTemp T0 Sf hMin hFinal 0 = 1 + T0 ∧
    updateTemp T0 Sf hMin hFinal Sf = 1 ∧
    ∀ s1 s2 : ℚ, s1 ≤ s2 → s2 ≤ Sf →
      updateTemp T0 Sf hMin hFinal s2 ≤ updateTemp T0 Sf hMin hFinal s1 := by
  have key : ∀ s : ℚ, s ≤ Sf →
      updateTemp T0 Sf hMin hFinal s = annealTemp T0 Sf s := by
    intro s hs
    have hguard : ¬ (annealTemp T0 Sf s = 1 ∧ hFinal ≠ 0 ∧ s > Sf ∧ hFinal ≠ 1) := by
      rintro ⟨-, -, hgt, -⟩
      exact absurd hgt (not_lt.mpr hs)
    simp only [updateTemp]
    rw [if_neg hguard]
  have hmono : ∀ s1 s2 : ℚ, s1 ≤ s2 → annealTemp T0 Sf s2 ≤ annealTemp T0 Sf s1 := by
    intro s1 s2 h12
    apply max_le_max le_rfl
    have hnum : T0 * (Sf - s2) ≤ T0 * (Sf - s1) :=
      mul_le_mul_of_nonneg_left (by linarith) hT0
    have hdiv : T0 * (Sf - s2) / Sf ≤ T0 * (Sf - s1) / Sf :=
      (div_le_div_iff_of_pos_right hSf).mpr hnum
    linarith
  have h0 : annealTemp T0 Sf 0 = 1 + T0 := by
    unfold annealTemp
    rw [sub_zero, mul_div_assoc, div_self (ne_of_gt hSf), mul_one]
    exact max_eq_right (by linarith)
  have hend : annealTemp T0 Sf Sf = 1 := by
    unfold annealTemp
    rw [sub_self, mul_zero, zero_div, add_zero, max_self]
  refine ⟨fun s hs => key s hs, ?_, ?_, ?_⟩
  · rw [key 0 (le_of_lt hSf), h0]
  · rw [key Sf le_rfl, hend]
  · intro s1 s2 h12 h2f
    rw [key s1 (le_trans h12 h2f), key s2 h2f]
    exact hmono s1 s2 h12

/-- C4 witness: the schedule with `T0 = 20`, `S_final = 10`: the value at
step 5 matches the linear formula, the value at 0 is 21, at 10 it is 1,
and step 10's value does not exceed step 5's. -/
theorem anneal_schedule_linear_witness :
    (0 : ℚ) ≤ 20 ∧ (0 : ℚ) < 10 ∧
    updateTemp 20 10 1 50 5 = max 1 (1 + 20 * (10 - 5) / 10) ∧
    updateTemp 20 10 1 50 0 = 21 ∧
    updateTemp 20 10 1 50 10 = 1 ∧
    updateTemp 20 10 1 50 10 ≤ updateTemp 20 10 1 50 5 := by
  have h := anneal_schedule_linear 20 10 1 50 (by norm_num) (by norm_num)
  refine ⟨by norm_num, by norm_num, h.1 5 (by norm_num), ?_, h.2.2.1,
    h.2.2.2 5 10 (by norm_num) le_rfl⟩
  rw [h.2.1]
  norm_num


/-- Keyword-value evaluation cannot reach the end of the argument list
when the list contains the `upsample_factor=scale` entry: the name
`scale` is bound nowhere in scope, so evaluation raises at or before that
entry. -/
theorem evalRegisterKwargs_stuck (keys : List String)
    (l : List (String × KwargValue))
    (hmem : ("upsample_factor", KwargValue.nameRef "scale") ∈ l) :
    evalRegisterKwargs keys l ≠ none := by
  induction l with
  | nil => simp at hmem
  | cons hd tl ih =>
    obtain ⟨nm, v⟩ := hd
    cases v with
    | optNetItem k =>
      have hmem' : ("upsample_factor", KwargValue.nameRef "scale") ∈ tl := by
        rcases List.mem_cons.mp hmem with heq | h
        · exact absurd heq (by simp)
        · exact h
      simp only [evalRegisterKwargs]
      split
      · exact ih hmem'
      · simp
    | nameRef n =>
      simp only [evalRegisterKwargs]
      split
      case isTrue hcond =>
        rcases List.mem_cons.mp hmem with heq | h
        · injection heq with h1 h2
          injection h2 with h3
          rw [← h3] at hcond
          exact absurd hcond (by decide)
        · exact ih h
      case isFalse _ => simp
  
/-- Keyword-value evaluation, when it raises, raises a `KeyError` or a
`NameError`, never the marker `ok`. -/
theorem evalRegisterKwargs_no_ok (keys : List String)
    (l : List (String × KwargValue)) :
    evalRegisterKwargs keys l ≠ some CallOutcome.ok := by
  induction l with
  | nil => simp [evalRegisterKwargs]
  | cons hd tl ih =>
    obtain ⟨nm, v⟩ := hd
    cases v with
    | optNetItem k =>
      simp only [evalRegisterKwargs]
      split
      · exact ih
      · simp
    | nameRef n =>
      simp only [evalRegisterKwargs]
      split
      · exact ih
      · simp

/-- C5: the registration entry point passes a `for_video` keyword that the
constructor does not accept, the names `scale` and `for_video` are bound
nowhere in its scope (the value of `upsample_factor` is the bare unbound
name `scale`), and consequently for every options mapping the invocation
raises instead of returning a constructed generator. -/
theorem register_call_always_fails :
    ("for_video" ∈ registerCallKwargList.map Prod.fst ∧
      "for_video" ∉ csrg2InitParamNames) ∧
    ("upsample_factor", KwargValue.nameRef "scale") ∈ registerCallKwargList ∧
    ("scale" ∉ registerScopeBoundNames ∧ "for_video" ∉ registerScopeBoundNames) ∧
    ∀ optNetKeys : List String,
      registerConfigurableSwitchedResidualGenerator2Call optNetKeys ≠
        CallOutcome.ok := by
  refine ⟨⟨by decide, by decide⟩, by decide, ⟨by decide, by decide⟩, ?_⟩
  intro keys
  unfold registerConfigurableSwitchedResidualGenerator2Call
  have hne := evalRegisterKwargs_stuck keys registerCallKwargList (by decide)
  have hok := evalRegisterKwargs_no_ok keys registerCallKwargList
  cases heval : evalRegisterKwargs keys registerCallKwargList with
  | none => exact absurd heval hne
  | some err =>
    have : err ≠ CallOutcome.ok := by
      intro h
      rw [h] at heval
      exact hok heval
    simpa using this

/-- C6: for `upsample_factor ∈ {2, 4}`, `forward` maps an input of shape
`(batch, 3, H, W)` to shape `(batch, 3, H*factor, W*factor)`; any other
factor makes the constructor assertion fail. -/
theorem upsample_factor_shape (b h w tf depth f : ℕ) (hf : f = 2 ∨ f = 4) :
    srg2ForwardShape tf depth f ⟨b, 3, h, w⟩ = ⟨b, 3, f * h, f * w⟩ ∧
    ∀ (A : Type) (depth' : ℕ) (t0 sf hm hfin : ℚ) (f' : ℕ),
      f' ≠ 2 → f' ≠ 4 →
      ConfigurableSwitchedResidualGenerator2.init A depth' t0 sf hm hfin f' =
        Except.error "AssertionError: upsample_factor" := by
  constructor
  · have hfix : (switchComputerShape tf)^[depth] ⟨b, tf, h, w⟩ = ⟨b, tf, h, w⟩ :=
      Function.iterate_fixed rfl depth
    rcases hf with rfl | rfl <;>
      simp [srg2ForwardShape, convBnLeluShape, interpolate2Shape, hfix]
    all_goals omega
  · intro A depth' t0 sf hm hfin f' h2 h4
    simp only [ConfigurableSwitchedResidualGenerator2.init]
    rw [if_neg]
    simp [h2, h4]

/-- C6 witness: a `(1, 3, 32, 32)` input with factor 2 yields
`(1, 3, 64, 64)`, and a constructor invoked with factor 3 fails the
assertion. -/
theorem upsample_factor_shape_witness :
    ((2 = 2 ∨ 2 = 4) ∧
      srg2ForwardShape 16 1 2 ⟨1, 3, 32, 32⟩ = ⟨1, 3, 64, 64⟩) ∧
    ConfigurableSwitchedResidualGenerator2.init Unit 1 20 10 1 50 3 =
      Except.error "AssertionError: upsample_factor" := by
  have h := upsample_factor_shape 1 32 32 16 1 2 (Or.inl rfl)
  exact ⟨⟨Or.inl rfl, by simpa using h.1⟩,
    h.2 Unit 1 20 10 1 50 3 (by decide) (by decide)⟩

/-- C7: when the learned scales `switch_scale` and `psc_scale` are both 0,
`ConfigurableSwitchComputer.forward` returns exactly the resolved identity
tensor: the mixed switch output and the post-switch convolution contribute
nothing. -/
theorem zero_scales_identity {ι κ : Type} (c : ConfigurableSwitchComputer ι κ)
    (hsw : c.switchScale = 0) (hpsc : c.pscScale = 0)
    (x : Tensor ι × List (Tensor ι)) (rand : Tensor ι)
    (att_in : Option (Tensor ι × List (Tensor ι))) (identity : Option (Tensor ι))
    (fixed_scale : ℚ) :
    (c.forward x rand att_in identity fixed_scale).1 = identity.getD x.1 := by
  unfold ConfigurableSwitchComputer.forward
  cases hc : c.postSwitchConv with
  | none =>
    funext i
    simp [hsw, hpsc, hc]
  | some psc =>
    funext i
    simp [hsw, hpsc, hc]

/-- C7 witness: the concrete sample switch computer (both scales 0) maps
the input tensor with constant value 7 to itself. -/
theorem zero_scales_identity_witness :
    sampleSwitchComputer.switchScale = 0 ∧ sampleSwitchComputer.pscScale = 0 ∧
    (sampleSwitchComputer.forward (fun _ => 7, []) (fun _ => 3) none none 1).1 =
      fun _ => (7 : ℚ) := by
  refine ⟨rfl, rfl, ?_⟩
  have h := zero_scales_identity sampleSwitchComputer rfl rfl
    (fun _ => 7, []) (fun _ => 3) none none 1
  simpa using h

/-- Row-major flattening then integer division recovers the batch index. -/
theorem flatIndex_div {b t : ℕ} (bi : Fin b) (j : Fin t) :
    (bi.val * t + j.val) / t = bi.val := by
  rw [Nat.mul_comm, Nat.mul_add_div j.pos]
  simp [Nat.div_eq_of_lt j.isLt]

/-- Row-major flattening then remainder recovers the branch index. -/
theorem flatIndex_mod {t : ℕ} (biv : ℕ) (j : Fin t) :
    (biv * t + j.val) % t = j.val := by
  rw [Nat.add_comm, Nat.add_mul_mod_self_right]
  exact Nat.mod_eq_of_lt j.isLt

/-- Evaluating the flattened-batch computation shared by both query/key
multiplexers at batch index `bi` and branch index `j`: the result is the
combine head applied to that batch's query and that branch's processed
key. -/
theorem qk_core_eval {α β : Type} {b t : ℕ} (q : Fin b → α)
    (keyProcess : α → α) (combineHead : α × α → β)
    (ts : Fin b → Fin t → α) (bi : Fin b) (j : Fin t) :
    viewSplit (fun i => combineHead (repeatBranch q i, keyProcess (viewFlat ts i))) bi j =
      combineHead (q bi, keyProcess (ts bi j)) := by
  unfold viewSplit repeatBranch viewFlat
  simp only [flatIndex_div, flatIndex_mod, Fin.eta]

/-- C8: both query/key multiplexers are permutation-equivariant in the
branch axis: permuting the stack of `T` branch outputs permutes the
output logits by exactly the same permutation, leaving each branch's
score otherwise unchanged. -/
theorem querykey_permutation_equivariant {α β : Type} {b t : ℕ}
    (queryPath2 : α → α → α) (queryPath1 : α → α)
    (keyProcess : α → α) (combineHead : α × α → β)
    (x embedding : Fin b → α) (transformations : Fin b → Fin t → α)
    (p : Equiv.Perm (Fin t)) :
    (QueryKeyMultiplexer.forward queryPath2 keyProcess combineHead x embedding
        (fun bi j => transformations bi (p j)) =
      fun bi j => QueryKeyMultiplexer.forward queryPath2 keyProcess combineHead
        x embedding transformations bi (p j)) ∧
    (QueryKeyPyramidMultiplexer.forward queryPath1 keyProcess combineHead x
        (fun bi j => transformations bi (p j)) =
      fun bi j => QueryKeyPyramidMultiplexer.forward queryPath1 keyProcess combineHead
        x transformations bi (p j)) := by
  constructor
  · funext bi j
    simp only [QueryKeyMultiplexer.forward]
    rw [qk_core_eval, qk_core_eval]
  · funext bi j
    simp only [QueryKeyPyramidMultiplexer.forward]
    rw [qk_core_eval, qk_core_eval]

/-- C9: with noise enabled, `att_in` and `identity` omitted and
`feed_transforms_into_multiplexer` disabled, `forward` equals the
spec-side computation in which the random perturbation reaches only the
pre-transform/branch input, the multiplexer receives the original
unperturbed `x`, and the residual identity is the original unperturbed
first element of `x`. -/
theorem noise_scope {ι κ : Type} (c : ConfigurableSwitchComputer ι κ)
    (hn : c.addNoise = true) (hf : c.feedTransformsIntoMultiplexer = false)
    (x : Tensor ι × List (Tensor ι)) (rand : Tensor ι) (fixed_scale : ℚ) :
    c.forward x rand none none fixed_scale = cscForwardNoiseSpec c x rand fixed_scale := by
  simp only [ConfigurableSwitchComputer.forward, cscForwardNoiseSpec, hn, hf,
    Option.getD_none, if_true, Bool.false_eq_true, if_false]

/-- C9 witness: the equality evaluated on the concrete sample switch
computer (noise on, stack not fed to the multiplexer) at the constant
input 7 with noise draw 3. -/
theorem noise_scope_witness :
    sampleSwitchComputer.addNoise = true ∧
    sampleSwitchComputer.feedTransformsIntoMultiplexer = false ∧
    sampleSwitchComputer.forward (fun _ => 7, []) (fun _ => 3) none none 1 =
      cscForwardNoiseSpec sampleSwitchComputer (fun _ => 7, []) (fun _ => 3) 1 :=
  ⟨rfl, rfl, noise_scope sampleSwitchComputer rfl rfl (fun _ => 7, []) (fun _ => 3) 1⟩

/-- C10: `get_debug_values` called on a freshly constructed generator
(with at least one switch), before any forward pass, raises: the
retained `attentions` field is still `None` and is iterated. -/
theorem debug_values_before_forward {A H : Type}
    (computeAttentionSpecificity : A → ℚ × H)
    (depth : ℕ) (hd : 0 < depth) (t0 sf hm hfin : ℚ) (uf : ℕ)
    (g : ConfigurableSwitchedResidualGenerator2 A)
    (hg : ConfigurableSwitchedResidualGenerator2.init A depth t0 sf hm hfin uf =
      Except.ok g) :
    g.get_debug_values computeAttentionSpecificity =
      Except.error PyError.typeErrorNoneNotIterable := by
  simp only [ConfigurableSwitchedResidualGenerator2.init] at hg
  split at hg
  · injection hg with hg'
    subst hg'
    cases depth with
    | zero => exact absurd hd (by simp)
    | succ n =>
      rfl
  · exact absurd hg (by simp)

/-- C10 witness: a fresh one-switch generator; `get_debug_values` returns
the `TypeError` marker. -/
theorem debug_values_before_forward_witness :
    (0 < 1) ∧
    ConfigurableSwitchedResidualGenerator2.init Unit 1 20 10 1 50 2 = Except.ok
      { initTemperature := 20, finalTemperatureStep := 10, heightenedTempMin := 1,
        heightenedFinalStep := 50, upsampleFactor := 2, switchTemps := [20],
        attentions := none } ∧
    ConfigurableSwitchedResidualGenerator2.get_debug_values
      (fun _ : Unit => ((0 : ℚ), ()))
      { initTemperature := 20, finalTemperatureStep := 10, heightenedTempMin := 1,
        heightenedFinalStep := 50, upsampleFactor := 2, switchTemps := [20],
        attentions := none } =
      Except.error PyError.typeErrorNoneNotIterable := by
  refine ⟨by decide, rfl, ?_⟩
  exact debug_values_before_forward (fun _ : Unit => ((0 : ℚ), ())) 1 (by decide)
    20 10 1 50 2 _ rfl
